import Mathlib

set_option autoImplicit false
set_option maxHeartbeats 1000000

/-!
Shallow embedding of `examples/pytorch/math_word_problem/mawps/src/runner.py`
(the MAWPS graph-to-tree training driver) and proofs about the claims of the
specification.

The driver is glue over the external graph4nlp / torch libraries.  The parts
embedded here are exactly the parts the claims speak about:

* the vocabulary bookkeeping of `Mawps.prepare_ext_vocab` (runner.py 137-146),
  both as a pure function and as a function over an explicit object store, so
  that the deep-copy / no-mutation behaviour is visible;
* the configuration dispatch of `Mawps._build_dataloader` (runner.py 50-114),
  with its two explicit `raise` sites;
* the epoch loop of `Mawps.train` (runner.py 172-185) with its evaluation gate
  `epoch > 2 and epoch % 5 == 0` and the `best_acc` fold, the test accuracy
  returned by `Mawps.eval` being abstracted as an oracle `Nat → Int`;
* the parenthesis-repair step of `Mawps.eval` (runner.py 220-231);
* the `__main__` block (runner.py 244-251);
* the list of external-library calls the script makes, for the concurrency
  claim.
-/

/-- Modelled from the spec: the vocabulary object of the external modeling
library (`graph4nlp.pytorch.modules.utils.tree_utils.Vocab`), which is not
under `src/`.  The spec describes it as a vocabulary-to-index mapping
(`symbol2idx` / `idx2symbol`) that can be runtime-extended with new symbols
(the OOV dictionary of the copy mechanism) and that has an unknown token.
We keep the symbol list as the ground truth: `symbol2idx` of a symbol is its
position in `idx2symbol`, a missing symbol maps to the unknown token's index,
and adding a symbol appends it (a symbol already present keeps its index). -/
structure Vocab where
  idx2symbol : List String
  unk_token : String
  deriving DecidableEq, Inhabited

/-- `Vocab.get_symbol_idx`: the index of `s`, or the unknown token's index
when `s` is not in the vocabulary. -/
def Vocab.get_symbol_idx (v : Vocab) (s : String) : Nat :=
  if s ∈ v.idx2symbol then v.idx2symbol.indexOf s else v.idx2symbol.indexOf v.unk_token

/-- `Vocab.add_symbol`: append `s` as a fresh final symbol when absent. -/
def Vocab.add_symbol (v : Vocab) (s : String) : Vocab :=
  if s ∈ v.idx2symbol then v else { v with idx2symbol := v.idx2symbol ++ [s] }

/-- One entry of `batch_graph.node_attributes`: the `'token'` attribute and
the optional `'type'` attribute (`n.get('type')` in the source, `none` when
the key is absent). -/
structure NodeAttr where
  token : String
  nodeType : Option Nat
  deriving DecidableEq

/-- The part of a batched `GraphData` object that `prepare_ext_vocab`
touches: the node-attribute list and the `'token_id_oov'` node feature (a
1-D integer tensor, one entry per node; `none` before it is set). -/
structure GraphData where
  node_attributes : List NodeAttr
  token_id_oov : Option (List Nat)
  deriving DecidableEq

/-- The body of the `for n in batch_graph.node_attributes` loop of
`Mawps.prepare_ext_vocab` (runner.py 140-144): conditionally extend the oov
dictionary, then append the token's current index to `token_matrix`. -/
def prepareStep (acc : Vocab × List Nat) (n : NodeAttr) : Vocab × List Nat :=
  let oov :=
    if (n.nodeType = none ∨ n.nodeType = some 0) ∧
        acc.1.get_symbol_idx n.token = acc.1.get_symbol_idx acc.1.unk_token
    then acc.1.add_symbol n.token else acc.1
  (oov, acc.2 ++ [oov.get_symbol_idx n.token])

/-- `Mawps.prepare_ext_vocab` (runner.py 137-146), value level: start from a
deep copy of `src_vocab`, run the node loop, store `token_matrix` as the
graph's `'token_id_oov'` feature, and return the extended dictionary.  The
mutation discipline (the deep copy shields `src_vocab`) is modelled
separately by `prepareExtVocabStore`. -/
def prepareExtVocab (g : GraphData) (src_vocab : Vocab) : Vocab × GraphData :=
  let r := g.node_attributes.foldl prepareStep (src_vocab, [])
  (r.1, { g with token_id_oov := some r.2 })

/-- Object-store view of the loop body of `prepare_ext_vocab`: vocabulary
objects live in a store (`List Vocab`), variables are references (indices),
and `oov_dict.add_symbol` mutates the store cell `oovRef` in place.  Used to
state the frame claim about `src_vocab`. -/
def prepareStoreStep (oovRef : Nat) (acc : List Vocab × List Nat) (n : NodeAttr) :
    List Vocab × List Nat :=
  let oov := acc.1.getD oovRef default
  let st :=
    if (n.nodeType = none ∨ n.nodeType = some 0) ∧
        oov.get_symbol_idx n.token = oov.get_symbol_idx oov.unk_token
    then acc.1.set oovRef (oov.add_symbol n.token) else acc.1
  let oov2 := st.getD oovRef default
  (st, acc.2 ++ [oov2.get_symbol_idx n.token])

/-- `Mawps.prepare_ext_vocab` over the object store: `copy.deepcopy`
allocates a fresh cell holding the value of `src_vocab` (runner.py 138), the
node loop mutates only that fresh cell, and the result is the final store,
the reference to the oov dictionary, and the updated graph. -/
def prepareExtVocabStore (st : List Vocab) (srcRef : Nat) (g : GraphData) :
    List Vocab × Nat × GraphData :=
  let oovRef := st.length
  let st1 := st ++ [st.getD srcRef default]
  let r := g.node_attributes.foldl (prepareStoreStep oovRef) (st1, [])
  (r.1, oovRef, { g with token_id_oov := some r.2 })

/-- The graph-construction classes the script imports from the external
library (runner.py 18, used at 53, 63, 73, 86, 88, 94). -/
inductive TopologyBuilder where
  | dependencyBased
  | constituencyBased
  | nodeEmbBased
  | nodeEmbRefinedBased
  deriving DecidableEq

/-- The exceptions the script raises explicitly: `raise NotImplementedError`
(runner.py 104) and `raise RuntimeError(msg)` (runner.py 90-91). -/
inductive ScriptError where
  | notImplementedError
  | runtimeError (msg : String)
  deriving DecidableEq

/-- The command-line configuration object `opt` (produced by `get_args` of
`config.py`, which is outside `src/`): the fields the script reads. -/
structure Config where
  seed : Nat
  gpuid : Int
  use_copy : Nat
  use_share_vocab : Bool
  data_dir : String
  graph_construction_type : String
  dynamic_init_graph_type : Option String
  enc_emb_size : Nat
  tgt_emb_size : Nat
  min_freq : Nat
  batch_size : Nat
  learning_rate : Rat
  weight_decay : Rat
  init_weight : Rat
  grad_clip : Nat
  max_epochs : Nat
  max_dec_seq_length : Nat
  max_dec_tree_depth : Nat
  beam_size : Nat
  deriving DecidableEq

/-- The keyword arguments of the `MawpsDatasetForTree(...)` constructor call
that `_build_dataloader` assembles (runner.py 52-102).  Optional fields model
keyword arguments that some branches do not pass;
`dynamic_init_topology_builder = some none` models passing the Python value
`None` (the line-graph initial topology). -/
structure DatasetArgs where
  root_dir : String
  topology_builder : TopologyBuilder
  topology_subdir : String
  edge_strategy : Option String := none
  share_vocab : Bool
  enc_emb_size : Nat
  dec_emb_size : Nat
  min_word_vocab_freq : Nat
  word_emb_size : Option Nat := none
  graph_type : Option String := none
  dynamic_graph_type : Option String := none
  dynamic_init_topology_builder : Option (Option TopologyBuilder) := none
  deriving DecidableEq

/-- The nested dispatch on `opt.dynamic_init_graph_type` inside the
`DynamicGraph_node_emb_refined` branch of `_build_dataloader`
(runner.py 83-91): `None` or `'line'` select no initial topology builder,
`'dependency'` and `'constituency'` select the corresponding class, and any
other value hits the explicit `raise RuntimeError` site. -/
def dynamicInitDispatch (digt : Option String) : Except ScriptError (Option TopologyBuilder) :=
  if digt = none ∨ digt = some "line" then
    .ok none
  else if digt = some "dependency" then
    .ok (some .dependencyBased)
  else if digt = some "constituency" then
    .ok (some .constituencyBased)
  else
    .error (.runtimeError "Define your own dynamic_init_topology_builder")

/-- `Mawps._build_dataloader` (runner.py 50-104): dispatch on
`opt.graph_construction_type`, with the nested dispatch on
`opt.dynamic_init_graph_type` in the refined branch, ending in the two
explicit raise sites.  The dataset construction itself (the external call) is
represented by the argument record it is given. -/
def buildDataloader (opt : Config) : Except ScriptError DatasetArgs :=
  if opt.graph_construction_type = "DependencyGraph" then
    .ok { root_dir := opt.data_dir
          topology_builder := .dependencyBased
          topology_subdir := "DependencyGraph"
          edge_strategy := some "as_node"
          share_vocab := opt.use_share_vocab
          enc_emb_size := opt.enc_emb_size
          dec_emb_size := opt.tgt_emb_size
          min_word_vocab_freq := opt.min_freq }
  else if opt.graph_construction_type = "ConstituencyGraph" then
    .ok { root_dir := opt.data_dir
          topology_builder := .constituencyBased
          topology_subdir := "ConstituencyGraph"
          share_vocab := opt.use_share_vocab
          enc_emb_size := opt.enc_emb_size
          dec_emb_size := opt.tgt_emb_size
          min_word_vocab_freq := opt.min_freq }
  else if opt.graph_construction_type = "DynamicGraph_node_emb" then
    .ok { root_dir := opt.data_dir
          word_emb_size := some opt.enc_emb_size
          topology_builder := .nodeEmbBased
          topology_subdir := "DynamicGraph_node_emb"
          graph_type := some "dynamic"
          dynamic_graph_type := some "node_emb"
          share_vocab := opt.use_share_vocab
          enc_emb_size := opt.enc_emb_size
          dec_emb_size := opt.tgt_emb_size
          min_word_vocab_freq := opt.min_freq }
  else if opt.graph_construction_type = "DynamicGraph_node_emb_refined" then
    (dynamicInitDispatch opt.dynamic_init_graph_type).bind
    fun dynamic_init_topology_builder =>
      .ok { root_dir := opt.data_dir
            word_emb_size := some opt.enc_emb_size
            topology_builder := .nodeEmbRefinedBased
            topology_subdir := "DynamicGraph_node_emb_refined"
            graph_type := some "dynamic"
            dynamic_graph_type := some "node_emb_refined"
            share_vocab := opt.use_share_vocab
            enc_emb_size := opt.enc_emb_size
            dec_emb_size := opt.tgt_emb_size
            dynamic_init_topology_builder := some dynamic_init_topology_builder
            min_word_vocab_freq := opt.min_freq }
  else
    .error .notImplementedError

/-- The four values of `opt.graph_construction_type` that
`_build_dataloader` recognizes. -/
def recognizedGraphTypes : List String :=
  ["DependencyGraph", "ConstituencyGraph", "DynamicGraph_node_emb",
   "DynamicGraph_node_emb_refined"]

/-- The observable events of one run of the script, used to state the
claims about sequencing: completion of the three build steps of
`Mawps.__init__` (runner.py 46-48), an exception propagating out of
`_build_dataloader`, one `train_epoch` call per epoch (runner.py 178), and
one `eval` call per gated epoch (runner.py 180-181). -/
inductive RunEvent where
  | buildDataloaderDone
  | buildModelDone
  | buildOptimizerDone
  | raised (e : ScriptError)
  | trainEpochRun (epoch : Nat)
  | evalRun (epoch : Nat)
  deriving DecidableEq

/-- Whether an event is an evaluation of the model on the test set. -/
def RunEvent.isEval : RunEvent → Bool
  | .evalRun _ => true
  | _ => false

/-- The evaluation gate of `Mawps.train` (runner.py 180):
`epoch > 2 and epoch % 5 == 0`. -/
def evalGate (epoch : Nat) : Bool :=
  decide (2 < epoch ∧ epoch % 5 = 0)

/-- The epochs `range(1, opt.max_epochs+1)` iterated by `Mawps.train`
(runner.py 176). -/
def trainEpochs (maxEpochs : Nat) : List Nat :=
  List.range' 1 maxEpochs

/-- The events of one iteration of the epoch loop of `Mawps.train`: the
`train_epoch` call, then the gated `eval` call. -/
def epochBlock (epoch : Nat) : List RunEvent :=
  RunEvent.trainEpochRun epoch :: (if evalGate epoch then [RunEvent.evalRun epoch] else [])

/-- The event trace of the epoch loop of `Mawps.train` (runner.py 176-183). -/
def trainTrace (maxEpochs : Nat) : List RunEvent :=
  ((trainEpochs maxEpochs).map epochBlock).flatten

/-- The `best_acc` update of one epoch of `Mawps.train` (runner.py 176-183):
when the evaluation gate fires, `test_acc = self.eval(...)` is compared with
the running best and replaces it when strictly greater.  The test accuracy
returned by `Mawps.eval`, which depends on the trained model and data, is
abstracted as the oracle `acc : Nat → Int` indexed by the epoch. -/
def trainBestStep (acc : Nat → Int) (best : Int) (epoch : Nat) : Int :=
  if evalGate epoch then (if acc epoch > best then acc epoch else best) else best

/-- The value returned by `Mawps.train` (runner.py 172-185): fold the
`best_acc` update over the epochs, starting from the sentinel `-1`. -/
def trainResult (maxEpochs : Nat) (acc : Nat → Int) : Int :=
  (trainEpochs maxEpochs).foldl (trainBestStep acc) (-1)

/-- The epochs at which `Mawps.train` evaluates the model. -/
def evalEpochs (maxEpochs : Nat) : List Nat :=
  (trainEpochs maxEpochs).filter evalGate

/-- The event trace of `Mawps.__init__` (runner.py 28-48): seeding and
device selection make no events; `_build_dataloader` either raises (the
exception propagates, the two later build steps never run) or completes,
after which `_build_model` and `_build_optimizer` complete in order. -/
def mawpsInitTrace (opt : Config) : List RunEvent :=
  match buildDataloader opt with
  | .error e => [RunEvent.raised e]
  | .ok _ =>
      [RunEvent.buildDataloaderDone, RunEvent.buildModelDone, RunEvent.buildOptimizerDone]

/-- The event trace of `Mawps(opt)` followed by `.train()`: the init trace,
then, when construction succeeded, the epoch-loop trace. -/
def mawpsRunTrace (opt : Config) : List RunEvent :=
  mawpsInitTrace opt ++
    (match buildDataloader opt with
     | .error _ => []
     | .ok _ => trainTrace opt.max_epochs)

/-- The `__main__` block (runner.py 244-251): obtain the configuration from
`get_args()` (defined in `config.py`, outside `src/`; modelled as the
function argument `get_args`), construct `Mawps(opt=get_args())`, and invoke
`train()` on that runner.  Timing and printing produce no events. -/
def mainScript (get_args : Unit → Config) : List RunEvent :=
  let opt := get_args ()
  mawpsInitTrace opt ++
    (match buildDataloader opt with
     | .error _ => []
     | .ok _ => trainTrace opt.max_epochs)

/-- The parenthesis counters of `Mawps.eval` (runner.py 221-224): the
number of tokens of `l` printing as symbol `s` under `v.idx2symbol`
(`sum(1 for c in candidate if eval_vocab.idx2symbol[int(c)] == s)`). -/
def parenCount (l : List Nat) (v : Vocab) (s : String) : Nat :=
  (l.filter fun c => v.idx2symbol.getD c "" = s).length

/-- The parenthesis-repair step of `Mawps.eval` (runner.py 220-231) on a
decoded candidate (a list of token indices): with `diff = num_left_paren -
num_right_paren` computed over Python ints, `diff > 0` (here `numRight <
numLeft`) appends `diff` copies of the separately supplied index
`test_data_loader.tgt_vocab.symbol2idx[")"]` (`rightParenIdx`); `diff < 0`
truncates to the first `len - |diff|` tokens (`candidate[:diff]`);
otherwise the candidate is unchanged. -/
def parenFix (candidate : List Nat) (eval_vocab : Vocab) (rightParenIdx : Nat) : List Nat :=
  if parenCount candidate eval_vocab ")" < parenCount candidate eval_vocab "(" then
    candidate ++
      List.replicate
        (parenCount candidate eval_vocab "(" - parenCount candidate eval_vocab ")")
        rightParenIdx
  else if parenCount candidate eval_vocab "(" < parenCount candidate eval_vocab ")" then
    candidate.take
      (candidate.length -
        (parenCount candidate eval_vocab ")" - parenCount candidate eval_vocab "("))
  else
    candidate

/-- The calls the script makes into the external libraries (torch, numpy,
random, graph4nlp), in program order over one run: module level and
`__init__` (runner.py 24, 33-35, 37-40), `_build_dataloader`
(runner.py 52-108), `_build_model` (runner.py 122-130), `_build_optimizer`
(runner.py 135), then per-step calls of `train_epoch` (runner.py 151-169)
and `eval` (runner.py 187-242).  `threadNew` and `processNew` stand for
direct thread/process creation primitives (`threading`, `multiprocessing`,
`subprocess`, `os.fork`); the script never calls them. -/
inductive ExtCall where
  | warningsFilter
  | randomSeed
  | npRandomSeed
  | torchManualSeed
  | torchDevice
  | datasetForTreeNew
  | dataLoaderNew (num_workers : Nat)
  | nllLossNew
  | graph2treeFromArgs
  | modelInit
  | modelTo
  | adamNew
  | optimizerZeroGrad
  | torchTensorNew
  | modelForward
  | lossBackward
  | clipGradValue
  | optimizerStepCall
  | decoderTranslate
  | convertToStringCall
  | computeTreeAccuracyCall
  | threadNew
  | processNew
  deriving DecidableEq

/-- Whether an external call directly creates a thread or a process of the
script's own. -/
def ExtCall.spawnsOwn : ExtCall → Bool
  | .threadNew => true
  | .processNew => true
  | _ => false

/-- The external calls of one run of the script, in program order
(training steps and evaluation steps shown once each). -/
def scriptExtCalls : List ExtCall :=
  [.warningsFilter, .randomSeed, .npRandomSeed, .torchManualSeed, .torchDevice,
   .datasetForTreeNew, .dataLoaderNew 1, .dataLoaderNew 1,
   .nllLossNew, .graph2treeFromArgs, .modelInit, .modelTo, .adamNew,
   .optimizerZeroGrad, .torchTensorNew, .modelForward, .lossBackward,
   .clipGradValue, .optimizerStepCall,
   .decoderTranslate, .torchTensorNew, .convertToStringCall, .computeTreeAccuracyCall]

/-- A sample configuration (the shape `get_args` produces), used to
instantiate universally quantified theorems at concrete inputs. -/
def exampleConfig : Config where
  seed := 1234
  gpuid := 0
  use_copy := 1
  use_share_vocab := true
  data_dir := "data"
  graph_construction_type := "DependencyGraph"
  dynamic_init_graph_type := none
  enc_emb_size := 300
  tgt_emb_size := 300
  min_freq := 1
  batch_size := 20
  learning_rate := 1/1000
  weight_decay := 0
  init_weight := 8/100
  grad_clip := 5
  max_epochs := 20
  max_dec_seq_length := 35
  max_dec_tree_depth := 8
  beam_size := 4

/-- Helper: the `dynamic_init_graph_type` dispatch can only fail with the
`RuntimeError` of runner.py 90-91, never with `NotImplementedError`. -/
theorem dynamicInitDispatch_error_eq (digt : Option String) (e : ScriptError)
    (h : dynamicInitDispatch digt = Except.error e) :
    e = ScriptError.runtimeError "Define your own dynamic_init_topology_builder" := by
  unfold dynamicInitDispatch at h
  split_ifs at h
  all_goals simp_all

/-- Helper: the `dynamic_init_graph_type` dispatch fails exactly on
unrecognized values. -/
theorem dynamicInitDispatch_error_iff (digt : Option String) :
    dynamicInitDispatch digt =
        Except.error (ScriptError.runtimeError "Define your own dynamic_init_topology_builder") ↔
      digt ∉ [none, some "line", some "dependency", some "constituency"] := by
  unfold dynamicInitDispatch
  split_ifs with h1 h2 h3
  · rcases h1 with h | h <;> simp [h]
  · simp [h2]
  · simp [h3]
  · push_neg at h1
    simp [h1.1, h1.2, h2, h3]

/-- Claim C3: `_build_dataloader` raises `NotImplementedError` exactly when
`opt.graph_construction_type` is none of the four recognized values, and for
each recognized value the dataset is constructed without that error. -/
theorem c3_build_dataloader_not_implemented_iff (opt : Config) :
    buildDataloader opt = Except.error ScriptError.notImplementedError ↔
      opt.graph_construction_type ∉ recognizedGraphTypes := by
  unfold buildDataloader recognizedGraphTypes
  split_ifs with h1 h2 h3 h4
  · simp [h1]
  · simp [h2]
  · simp [h3]
  · rcases hd : dynamicInitDispatch opt.dynamic_init_graph_type with e | a
    · have he := dynamicInitDispatch_error_eq _ _ hd
      simp [Except.bind, hd, he, h4]
    · simp [Except.bind, hd, h4]
  · simp [h1, h2, h3, h4]

/-- Claim C2, counterexample: with `graph_construction_type =
"DynamicGraph_node_emb_refined"` and an unrecognized
`dynamic_init_graph_type`, the script explicitly raises `RuntimeError`
(runner.py 90-91), which is not `NotImplementedError`, so
`NotImplementedError` is not the only explicitly raised exception. -/
theorem c2_counterexample :
    buildDataloader { exampleConfig with
        graph_construction_type := "DynamicGraph_node_emb_refined"
        dynamic_init_graph_type := some "random" } =
      Except.error (ScriptError.runtimeError "Define your own dynamic_init_topology_builder") ∧
    ScriptError.runtimeError "Define your own dynamic_init_topology_builder" ≠
      ScriptError.notImplementedError :=
  ⟨rfl, by decide⟩

/-- Claim C2, amended: the script's explicit raise sites are exactly two
guards for unrecognized configuration values — `NotImplementedError` when
`graph_construction_type` is unrecognized (runner.py 103-104), and
`RuntimeError("Define your own dynamic_init_topology_builder")` when
`graph_construction_type` is `"DynamicGraph_node_emb_refined"` and
`dynamic_init_graph_type` is unrecognized (runner.py 89-91). -/
theorem c2_explicit_raises_characterization (opt : Config) (e : ScriptError) :
    buildDataloader opt = Except.error e ↔
      ((e = ScriptError.notImplementedError ∧
        opt.graph_construction_type ∉ recognizedGraphTypes) ∨
       (e = ScriptError.runtimeError "Define your own dynamic_init_topology_builder" ∧
        opt.graph_construction_type = "DynamicGraph_node_emb_refined" ∧
        opt.dynamic_init_graph_type ∉ [none, some "line", some "dependency", some "constituency"])) := by
  unfold buildDataloader recognizedGraphTypes
  split_ifs with h1 h2 h3 h4
  · simp [h1]
  · simp [h2]
  · simp [h3]
  · rcases hd : dynamicInitDispatch opt.dynamic_init_graph_type with e2 | a
    · have he := dynamicInitDispatch_error_eq _ _ hd
      subst he
      have hiff := (dynamicInitDispatch_error_iff opt.dynamic_init_graph_type).mp hd
      simp [Except.bind, hd, h4, hiff, eq_comm]
    · have hiff : opt.dynamic_init_graph_type ∈
          [none, some "line", some "dependency", some "constituency"] := by
        by_contra hmem
        rw [← dynamicInitDispatch_error_iff] at hmem
        rw [hd] at hmem
        exact absurd hmem (by simp)
      simp [Except.bind, hd, h4, hiff]
  · simp [h1, h2, h3, h4, eq_comm]

/-- Claim C7: the script itself spawns no thread and no process — none of
its external-library calls is a direct thread/process creation primitive —
and the data-loading concurrency is delegated to the framework through the
`DataLoader(..., num_workers=1)` calls (runner.py 106-109). -/
theorem c7_single_threaded_driver :
    (scriptExtCalls.all fun c => !c.spawnsOwn) = true ∧
    ExtCall.dataLoaderNew 1 ∈ scriptExtCalls := by
  decide

/-- The epoch of a `train_epoch` event. -/
def epochOf : RunEvent → Option Nat
  | .trainEpochRun e => some e
  | _ => none

/-- Helper: the epoch-loop trace runs exactly one training epoch per
iterated epoch, in order. -/
theorem trainTrace_epochs (l : List Nat) :
    ((l.map epochBlock).flatten).filterMap epochOf = l := by
  induction l with
  | nil => rfl
  | cons e t ih =>
    rw [List.map_cons, List.flatten_cons, List.filterMap_append]
    by_cases hg : evalGate e = true <;>
      simp [epochBlock, epochOf, hg, ih]

/-- Helper: an evaluation event occurs in one iteration's events exactly
when that epoch passes the gate. -/
theorem evalRun_mem_epochBlock (e x : Nat) :
    RunEvent.evalRun x ∈ epochBlock e ↔ x = e ∧ evalGate e = true := by
  unfold epochBlock
  by_cases hg : evalGate e = true <;> simp [hg]

/-- Helper: an evaluation event occurs in the epoch-loop trace exactly at
the gated epochs. -/
theorem evalRun_mem_trainTrace (l : List Nat) (x : Nat) :
    RunEvent.evalRun x ∈ (l.map epochBlock).flatten ↔ x ∈ l ∧ evalGate x = true := by
  induction l with
  | nil => simp
  | cons e t ih =>
    rw [List.map_cons, List.flatten_cons, List.mem_append, ih, evalRun_mem_epochBlock]
    constructor
    · rintro (⟨rfl, hg⟩ | ⟨hx, hgx⟩)
      · exact ⟨List.mem_cons_self _ _, hg⟩
      · exact ⟨List.mem_cons_of_mem _ hx, hgx⟩
    · rintro ⟨hx, hgx⟩
      rcases List.mem_cons.mp hx with rfl | hx
      · exact Or.inl ⟨rfl, hgx⟩
      · exact Or.inr ⟨hx, hgx⟩

/-- Helper: the `best_acc` fold of `Mawps.train` computes the maximum of
its starting value and the accuracies at the gated epochs. -/
theorem foldl_trainBestStep (acc : Nat → Int) (l : List Nat) :
    ∀ b : Int, l.foldl (trainBestStep acc) b = ((l.filter evalGate).map acc).foldl max b := by
  induction l with
  | nil => intro b; rfl
  | cons e t ih =>
    intro b
    rw [List.foldl_cons]
    by_cases hg : evalGate e = true
    · have hstep : trainBestStep acc b e = max b (acc e) := by
        unfold trainBestStep
        rw [if_pos hg]
        rcases le_or_lt (acc e) b with h | h
        · rw [if_neg (not_lt.mpr h), max_eq_left h]
        · rw [if_pos h, max_eq_right h.le]
      rw [hstep, ih, List.filter_cons_of_pos hg, List.map_cons, List.foldl_cons]
    · have hstep : trainBestStep acc b e = b := by
        unfold trainBestStep
        rw [if_neg (by simp [hg])]
      rw [hstep, ih, List.filter_cons_of_neg (by simp [hg])]

/-- Claim C4, counterexample: with `max_epochs = 1` the loop runs one
training epoch, never evaluates on the test set, and returns the sentinel
`-1` rather than any observed test accuracy — so it is not true that for
every configuration `train()` evaluates the model and returns the best
observed test accuracy. -/
theorem c4_counterexample :
    trainTrace 1 = [RunEvent.trainEpochRun 1] ∧
    ((trainTrace 1).all fun ev => !ev.isEval) = true ∧
    trainResult 1 (fun _ => 7) = -1 ∧ (-1 : Int) ≠ 7 := by
  refine ⟨by decide, by decide, ?_, by decide⟩
  rfl

/-- Claim C4, amended: `train()` iterates the epochs `1 .. max_epochs`
inclusive, running one training epoch per iteration; it evaluates on the
test set exactly at the epochs of that range that are greater than 2 and
divisible by 5; and it returns the maximum of the sentinel `-1` and the
test accuracies observed at those evaluations. -/
theorem c4_train_loop (m : Nat) (acc : Nat → Int) :
    (trainTrace m).filterMap epochOf = List.range' 1 m ∧
    (∀ x, RunEvent.evalRun x ∈ trainTrace m ↔ (1 ≤ x ∧ x ≤ m ∧ 2 < x ∧ x % 5 = 0)) ∧
    trainResult m acc = ((evalEpochs m).map acc).foldl max (-1) := by
  refine ⟨trainTrace_epochs _, fun x => ?_, ?_⟩
  · rw [trainTrace, trainEpochs, evalRun_mem_trainTrace]
    simp only [List.mem_range'_1, evalGate, decide_eq_true_eq]
    omega
  · exact foldl_trainBestStep acc (trainEpochs m) (-1)

/-- Claim C10: evaluation inside `train()` happens only at epochs greater
than 2 and divisible by 5, hence never before epoch 5 (and epoch 5 is
evaluated whenever `max_epochs ≥ 5`); when `max_epochs < 5` no evaluation
happens at all and the sentinel `-1` is returned. -/
theorem c10_eval_gating (m : Nat) :
    (∀ x, RunEvent.evalRun x ∈ trainTrace m → 2 < x ∧ x % 5 = 0 ∧ 5 ≤ x) ∧
    (5 ≤ m → RunEvent.evalRun 5 ∈ trainTrace m) ∧
    (m < 5 →
      (∀ x, RunEvent.evalRun x ∉ trainTrace m) ∧
      ∀ acc : Nat → Int, trainResult m acc = -1) := by
  have hmem : ∀ x, RunEvent.evalRun x ∈ trainTrace m ↔
      (1 ≤ x ∧ x < 1 + m) ∧ (2 < x ∧ x % 5 = 0) := by
    intro x
    rw [trainTrace, trainEpochs, evalRun_mem_trainTrace]
    simp [List.mem_range'_1, evalGate]
  refine ⟨?_, ?_, ?_⟩
  · intro x hx
    rw [hmem] at hx
    omega
  · intro hm
    rw [hmem]
    omega
  · intro hm
    have hempty : evalEpochs m = [] := by
      rw [evalEpochs, List.filter_eq_nil_iff]
      intro a ha
      rw [trainEpochs, List.mem_range'_1] at ha
      simp only [evalGate, decide_eq_true_eq]
      omega
    refine ⟨fun x hx => ?_, fun acc => ?_⟩
    · rw [hmem] at hx
      omega
    · rw [trainResult, foldl_trainBestStep]
      rw [show (trainEpochs m).filter evalGate = evalEpochs m from rfl, hempty]
      rfl

/-- Claim C10, witness: with `max_epochs = 10` epoch 5 is evaluated; with
`max_epochs = 3` the returned best accuracy is the sentinel `-1`. -/
theorem c10_eval_gating_witness :
    RunEvent.evalRun 5 ∈ trainTrace 10 ∧ trainResult 3 (fun _ => 9) = -1 :=
  ⟨(c10_eval_gating 10).2.1 (by decide), ((c10_eval_gating 3).2.2 (by decide)).2 (fun _ => 9)⟩

/-- The dataset-argument record the `DependencyGraph` branch of
`_build_dataloader` assembles for `exampleConfig` (runner.py 52-59). -/
def exampleDatasetArgs : DatasetArgs where
  root_dir := "data"
  topology_builder := .dependencyBased
  topology_subdir := "DependencyGraph"
  edge_strategy := some "as_node"
  share_vocab := true
  enc_emb_size := 300
  dec_emb_size := 300
  min_word_vocab_freq := 1

/-- Claim C5: whenever construction of the runner succeeds, its event trace
is the three build steps in the fixed order dataset builder, model builder,
optimizer builder, all before any epoch or evaluation events (which are
exactly the events of the later epoch loop). -/
theorem c5_build_order (opt : Config) (d : DatasetArgs)
    (h : buildDataloader opt = Except.ok d) :
    mawpsRunTrace opt =
      [RunEvent.buildDataloaderDone, RunEvent.buildModelDone, RunEvent.buildOptimizerDone] ++
        trainTrace opt.max_epochs := by
  unfold mawpsRunTrace mawpsInitTrace
  rw [h]

/-- Claim C5, witness: the build order at the sample configuration. -/
theorem c5_build_order_witness :
    mawpsRunTrace exampleConfig =
      [RunEvent.buildDataloaderDone, RunEvent.buildModelDone, RunEvent.buildOptimizerDone] ++
        trainTrace exampleConfig.max_epochs :=
  c5_build_order exampleConfig exampleDatasetArgs rfl

/-- Claim C6: when executed as the main module, the script's behaviour is a
function of the configuration returned by `get_args()` alone — two runs
whose `get_args()` results agree produce identical traces — and that
configuration is used to construct the runner, whose `train()` is then
invoked (the trace is the runner's construct-then-train trace on the
`get_args()` output). -/
theorem c6_main_uses_get_args (ga1 ga2 : Unit → Config) (h : ga1 () = ga2 ()) :
    mainScript ga1 = mawpsRunTrace (ga1 ()) ∧ mainScript ga1 = mainScript ga2 := by
  constructor
  · rfl
  · unfold mainScript
    rw [h]

/-- Claim C6, witness: the main-module composition at the sample
configuration. -/
theorem c6_main_uses_get_args_witness :
    mainScript (fun _ => exampleConfig) = mawpsRunTrace exampleConfig ∧
    mainScript (fun _ => exampleConfig) = mainScript (fun _ => exampleConfig) :=
  c6_main_uses_get_args (fun _ => exampleConfig) (fun _ => exampleConfig) rfl

/-- Helper: the parenthesis counter is additive over concatenation. -/
theorem parenCount_append (l1 l2 : List Nat) (v : Vocab) (s : String) :
    parenCount (l1 ++ l2) v s = parenCount l1 v s + parenCount l2 v s := by
  simp [parenCount, List.filter_append]

/-- Helper: the parenthesis counter on a repeated index. -/
theorem parenCount_replicate (k r : Nat) (v : Vocab) (s : String) :
    parenCount (List.replicate k r) v s = if v.idx2symbol.getD r "" = s then k else 0 := by
  by_cases h : v.idx2symbol.getD r "" = s
  · rw [if_pos h, parenCount,
        List.filter_replicate_of_pos (by simp only [decide_eq_true_eq]; exact h),
        List.length_replicate]
  · rw [if_neg h, parenCount,
        List.filter_replicate_of_neg (by simp only [decide_eq_true_eq]; exact h),
        List.length_nil]

/-- The evaluation vocabulary of the repair examples: it maps index 2 to
`"+"`, while a target vocabulary may well have its `")"` at index 2 — the
two vocabularies of runner.py 220-231 (`eval_vocab` for counting,
`test_data_loader.tgt_vocab` for appending) need not agree. -/
def exEvalVocab : Vocab where
  idx2symbol := ["(", ")", "+"]
  unk_token := "+"

/-- Claim C9, counterexample: on the candidate `[0]` (one `"("`, no `")"`)
with the appended index 2 — the target vocabulary's `")"` index, which the
evaluation vocabulary prints as `"+"` — the repair appends an index that is
not a `")"` index of the counting vocabulary, and the two counts stay
unequal in the result, contradicting the claimed equalization. -/
theorem c9_counterexample :
    parenFix [0] exEvalVocab 2 = [0, 2] ∧
    exEvalVocab.idx2symbol.getD 2 "" ≠ ")" ∧
    parenCount [0, 2] exEvalVocab "(" = 1 ∧
    parenCount [0, 2] exEvalVocab ")" = 0 := by
  decide

/-- Claim C9, amended: when the candidate has more `"("` than `")"` under
the evaluation vocabulary, exactly the difference many copies of the target
vocabulary's `")"` index are appended, and when the evaluation vocabulary
prints that appended index as `")"` (in particular whenever the two
vocabularies agree on it) the two counts become equal in the result; when
it has fewer `"("` than `")"`, the last `(count of ")" - count of "(")`
tokens are removed instead, which does not in general equalize the counts
(witness the concrete truncation conjuncts); when the counts are equal the
candidate is unchanged. -/
theorem c9_paren_repair (cand : List Nat) (v : Vocab) (r : Nat) :
    (parenCount cand v ")" < parenCount cand v "(" →
      parenFix cand v r =
        cand ++ List.replicate (parenCount cand v "(" - parenCount cand v ")") r ∧
      (v.idx2symbol.getD r "" = ")" →
        parenCount (parenFix cand v r) v "(" = parenCount (parenFix cand v r) v ")")) ∧
    (parenCount cand v "(" < parenCount cand v ")" →
      parenFix cand v r =
        cand.take (cand.length - (parenCount cand v ")" - parenCount cand v "("))) ∧
    (parenCount cand v "(" = parenCount cand v ")" → parenFix cand v r = cand) ∧
    parenFix [1, 1, 0] exEvalVocab 1 = [1, 1] ∧
    parenCount [1, 1] exEvalVocab "(" ≠ parenCount [1, 1] exEvalVocab ")" := by
  refine ⟨fun hlt => ?_, fun hlt => ?_, fun heq => ?_, by decide, by decide⟩
  · have hfix : parenFix cand v r =
        cand ++ List.replicate (parenCount cand v "(" - parenCount cand v ")") r := by
      rw [parenFix, if_pos hlt]
    refine ⟨hfix, fun hr => ?_⟩
    have hne : ¬ v.idx2symbol.getD r "" = "(" := by
      rw [hr]; decide
    rw [hfix, parenCount_append, parenCount_append, parenCount_replicate,
        parenCount_replicate, if_pos hr, if_neg hne]
    omega
  · rw [parenFix, if_neg (by omega), if_pos hlt]
  · rw [parenFix, if_neg (by omega), if_neg (by omega)]

/-- Claim C9, witness: on the candidate `[0, 1, 0]` (two `"("`, one `")"`)
with appended index 1, which the evaluation vocabulary does print as `")"`,
the repair appends one index and equalizes the counts. -/
theorem c9_paren_repair_witness :
    parenFix [0, 1, 0] exEvalVocab 1 =
      [0, 1, 0] ++
        List.replicate
          (parenCount [0, 1, 0] exEvalVocab "(" - parenCount [0, 1, 0] exEvalVocab ")") 1 ∧
    parenCount (parenFix [0, 1, 0] exEvalVocab 1) exEvalVocab "(" =
      parenCount (parenFix [0, 1, 0] exEvalVocab 1) exEvalVocab ")" := by
  have h := (c9_paren_repair [0, 1, 0] exEvalVocab 1).1 (by decide)
  exact ⟨h.1, h.2 (by decide)⟩

/-- Helper: the node loop of the store model writes only to the store cell
`oovRef`; every other cell keeps its value. -/
theorem foldl_storeStep_getElem (oovRef : Nat) (nodes : List NodeAttr) :
    ∀ (st : List Vocab) (tm : List Nat) (j : Nat), j ≠ oovRef →
      ((nodes.foldl (prepareStoreStep oovRef) (st, tm)).1)[j]? = st[j]? := by
  induction nodes with
  | nil => intro st tm j hj; rfl
  | cons n t ih =>
    intro st tm j hj
    rw [List.foldl_cons]
    have hstep : ((prepareStoreStep oovRef (st, tm) n).1)[j]? = st[j]? := by
      simp only [prepareStoreStep]
      split
      · exact List.getElem?_set_ne (Ne.symm hj)
      · rfl
    exact (ih _ _ j hj).trans hstep

/-- A one-entry object store holding the source vocabulary, and the graph
of the examples: the token `"x"` is out of vocabulary, appears first on a
node of nonzero type and then on a node of type 0. -/
def exVocab : Vocab where
  idx2symbol := ["<unk>"]
  unk_token := "<unk>"

/-- The store holding only the source vocabulary. -/
def exStore : List Vocab := [exVocab]

/-- The example batch graph (see `exVocab`). -/
def exGraph : GraphData where
  node_attributes := [{ token := "x", nodeType := some 1 }, { token := "x", nodeType := some 0 }]
  token_id_oov := none

/-- Claim C8: `prepare_ext_vocab` never mutates its `src_vocab` argument —
in the object-store model, every store cell that existed before the call
(in particular the one holding `src_vocab`) holds the identical vocabulary
object afterwards, so its symbol-to-index and index-to-symbol mappings are
unchanged; only the freshly allocated deep copy and the graph's
`'token_id_oov'` feature change. -/
theorem c8_prepare_ext_vocab_frame (st : List Vocab) (srcRef : Nat) (g : GraphData) (j : Nat)
    (hj : j < st.length) :
    ((prepareExtVocabStore st srcRef g).1)[j]? = st[j]? := by
  simp only [prepareExtVocabStore]
  have h1 := foldl_storeStep_getElem st.length g.node_attributes
    (st ++ [st.getD srcRef default]) [] j (Nat.ne_of_lt hj)
  exact h1.trans (List.getElem?_append_left hj)

/-- Claim C8, witness: at the concrete store, the source vocabulary's cell
is unchanged by the call. -/
theorem c8_prepare_ext_vocab_frame_witness :
    ((prepareExtVocabStore exStore 0 exGraph).1)[0]? = exStore[0]? :=
  c8_prepare_ext_vocab_frame exStore 0 exGraph 0 (by decide)

/-- Helper: adding a symbol never changes the unknown token. -/
theorem Vocab.add_symbol_unk_eq (v : Vocab) (s : String) :
    (v.add_symbol s).unk_token = v.unk_token := by
  unfold Vocab.add_symbol
  split <;> rfl

/-- Helper: adding a symbol only appends to the symbol list. -/
theorem Vocab.add_symbol_extends (v : Vocab) (s : String) :
    v.idx2symbol <+: (v.add_symbol s).idx2symbol := by
  unfold Vocab.add_symbol
  split
  · exact List.prefix_rfl
  · exact ⟨[s], rfl⟩

/-- Helper: after adding a symbol it is present. -/
theorem Vocab.mem_add_symbol (v : Vocab) (s : String) :
    s ∈ (v.add_symbol s).idx2symbol := by
  unfold Vocab.add_symbol
  split
  · assumption
  · simp

/-- Helper: the index of the unknown token is its list position, whether or
not the membership test succeeds. -/
theorem Vocab.get_symbol_idx_unk (v : Vocab) :
    v.get_symbol_idx v.unk_token = v.idx2symbol.indexOf v.unk_token := by
  unfold Vocab.get_symbol_idx
  split <;> rfl

/-- Helper: a missing symbol maps to the unknown token's index. -/
theorem Vocab.get_symbol_idx_of_not_mem (v : Vocab) (s : String) (h : s ∉ v.idx2symbol) :
    v.get_symbol_idx s = v.get_symbol_idx v.unk_token := by
  rw [Vocab.get_symbol_idx, if_neg h, Vocab.get_symbol_idx_unk]

/-- Helper: a symbol whose index differs from the unknown token's index is
present. -/
theorem Vocab.mem_of_get_symbol_idx_ne (v : Vocab) (s : String)
    (h : v.get_symbol_idx s ≠ v.get_symbol_idx v.unk_token) : s ∈ v.idx2symbol := by
  by_contra hmem
  exact h (v.get_symbol_idx_of_not_mem s hmem)

/-- Helper: extending the symbol list by appending preserves the index of
every symbol already present. -/
theorem Vocab.get_symbol_idx_of_extension (v w : Vocab) (hp : v.idx2symbol <+: w.idx2symbol)
    (s : String) (hs : s ∈ v.idx2symbol) : w.get_symbol_idx s = v.get_symbol_idx s := by
  obtain ⟨t, ht⟩ := hp
  have hsw : s ∈ w.idx2symbol := by
    rw [← ht]
    exact List.mem_append_left _ hs
  rw [Vocab.get_symbol_idx, Vocab.get_symbol_idx, if_pos hs, if_pos hsw, ← ht,
      List.indexOf_append_of_mem hs]

/-- Helper: extension also preserves the unknown token's index. -/
theorem Vocab.get_symbol_idx_unk_of_extension (v w : Vocab) (hp : v.idx2symbol <+: w.idx2symbol)
    (hu : w.unk_token = v.unk_token) (hunk : v.unk_token ∈ v.idx2symbol) :
    w.get_symbol_idx w.unk_token = v.get_symbol_idx v.unk_token := by
  rw [hu, Vocab.get_symbol_idx_of_extension v w hp v.unk_token hunk]

/-- Helper: the vocabulary component of one loop step, explicitly. -/
theorem prepareStep_fst (oov : Vocab) (tm : List Nat) (n : NodeAttr) :
    (prepareStep (oov, tm) n).1 =
      if (n.nodeType = none ∨ n.nodeType = some 0) ∧
          oov.get_symbol_idx n.token = oov.get_symbol_idx oov.unk_token
      then oov.add_symbol n.token else oov := rfl

/-- Helper: the token-matrix component of one loop step, explicitly. -/
theorem prepareStep_snd (oov : Vocab) (tm : List Nat) (n : NodeAttr) :
    (prepareStep (oov, tm) n).2 =
      tm ++ [(prepareStep (oov, tm) n).1.get_symbol_idx n.token] := rfl

/-- Helper: one loop step only appends to the symbol list. -/
theorem prepareStep_fst_extends (oov : Vocab) (tm : List Nat) (n : NodeAttr) :
    oov.idx2symbol <+: (prepareStep (oov, tm) n).1.idx2symbol := by
  rw [prepareStep_fst]
  split
  · exact Vocab.add_symbol_extends oov n.token
  · exact List.prefix_rfl

/-- Helper: one loop step preserves the unknown token. -/
theorem prepareStep_fst_unk (oov : Vocab) (tm : List Nat) (n : NodeAttr) :
    (prepareStep (oov, tm) n).1.unk_token = oov.unk_token := by
  rw [prepareStep_fst]
  split
  · exact Vocab.add_symbol_unk_eq oov n.token
  · rfl

/-- Helper: after processing a node whose `'type'` is absent or 0, its
token is in the dictionary. -/
theorem prepareStep_fst_token_mem (oov : Vocab) (tm : List Nat) (n : NodeAttr)
    (hty : n.nodeType = none ∨ n.nodeType = some 0) :
    n.token ∈ (prepareStep (oov, tm) n).1.idx2symbol := by
  rw [prepareStep_fst]
  by_cases hc : (n.nodeType = none ∨ n.nodeType = some 0) ∧
      oov.get_symbol_idx n.token = oov.get_symbol_idx oov.unk_token
  · rw [if_pos hc]
    exact Vocab.mem_add_symbol oov n.token
  · rw [if_neg hc]
    exact Vocab.mem_of_get_symbol_idx_ne oov n.token fun he => hc ⟨hty, he⟩

/-- Helper: the node-loop fold decomposes over its token-matrix
accumulator - the vocabulary result ignores it and the matrix result
appends to it. -/
theorem foldl_prepareStep_decomp (nodes : List NodeAttr) :
    ∀ (oov : Vocab) (tm : List Nat),
      (nodes.foldl prepareStep (oov, tm)).1 = (nodes.foldl prepareStep (oov, [])).1 ∧
      (nodes.foldl prepareStep (oov, tm)).2 = tm ++ (nodes.foldl prepareStep (oov, [])).2 := by
  induction nodes with
  | nil => exact fun oov tm => ⟨rfl, by simp⟩
  | cons n t ih =>
    intro oov tm
    rcases hP : prepareStep (oov, []) n with ⟨o1, e1⟩
    have h1 : prepareStep (oov, tm) n = (o1, tm ++ e1) := by
      have h0 : prepareStep (oov, tm) n =
          ((prepareStep (oov, []) n).1, tm ++ (prepareStep (oov, []) n).2) := rfl
      rw [h0, hP]
    rw [List.foldl_cons, List.foldl_cons, h1, hP]
    obtain ⟨ha1, ha2⟩ := ih o1 (tm ++ e1)
    obtain ⟨hb1, hb2⟩ := ih o1 e1
    exact ⟨ha1.trans hb1.symm, by rw [ha2, hb2, List.append_assoc]⟩

/-- Helper, main invariant of the node loop of `prepare_ext_vocab`: the
source symbols are a prefix of the result (so they keep their indices), the
unknown token is unchanged, the token matrix has one entry per node, every
token of a node with `'type'` absent or 0 ends up in the dictionary, and
each matrix entry is the final index of its node's token — except that a
node with nonzero `'type'` whose token is absent when it is processed
records the unknown token's index. -/
theorem prepare_fold_inv (nodes : List NodeAttr) :
    ∀ oov : Vocab, oov.unk_token ∈ oov.idx2symbol →
      oov.idx2symbol <+: (nodes.foldl prepareStep (oov, [])).1.idx2symbol ∧
      (nodes.foldl prepareStep (oov, [])).1.unk_token = oov.unk_token ∧
      (nodes.foldl prepareStep (oov, [])).2.length = nodes.length ∧
      (∀ n ∈ nodes, (n.nodeType = none ∨ n.nodeType = some 0) →
        n.token ∈ (nodes.foldl prepareStep (oov, [])).1.idx2symbol) ∧
      (∀ (i : Nat) (n2 : NodeAttr), nodes[i]? = some n2 →
        ((n2.nodeType = none ∨ n2.nodeType = some 0) →
          (nodes.foldl prepareStep (oov, [])).2[i]? =
            some ((nodes.foldl prepareStep (oov, [])).1.get_symbol_idx n2.token)) ∧
        ((nodes.foldl prepareStep (oov, [])).2[i]? =
            some ((nodes.foldl prepareStep (oov, [])).1.get_symbol_idx n2.token) ∨
         (nodes.foldl prepareStep (oov, [])).2[i]? =
            some (oov.get_symbol_idx oov.unk_token))) := by
  induction nodes with
  | nil =>
    intro oov hunk
    refine ⟨List.prefix_rfl, rfl, rfl, by simp, ?_⟩
    intro i n2 hi
    simp at hi
  | cons n t ih =>
    intro oov hunk
    rcases hP : prepareStep (oov, []) n with ⟨o1, e1⟩
    have hpre1 : oov.idx2symbol <+: o1.idx2symbol := by
      have h := prepareStep_fst_extends oov [] n
      rw [hP] at h
      exact h
    have hunk1 : o1.unk_token = oov.unk_token := by
      have h := prepareStep_fst_unk oov [] n
      rw [hP] at h
      exact h
    have hunkmem1 : o1.unk_token ∈ o1.idx2symbol := by
      rw [hunk1]
      exact hpre1.subset hunk
    have htokmem : (n.nodeType = none ∨ n.nodeType = some 0) → n.token ∈ o1.idx2symbol := by
      intro hty
      have h := prepareStep_fst_token_mem oov [] n hty
      rw [hP] at h
      exact h
    have he1 : e1 = [o1.get_symbol_idx n.token] := by
      have h := prepareStep_snd oov [] n
      rw [hP] at h
      simpa using h
    obtain ⟨hd1, hd2⟩ := foldl_prepareStep_decomp t o1 e1
    obtain ⟨ihx1, ihx2, ihx3, ihx4, ihx5⟩ := ih o1 hunkmem1
    rw [List.foldl_cons, hP, hd1, hd2, he1, List.singleton_append]
    refine ⟨hpre1.trans ihx1, by rw [ihx2, hunk1], ?_, ?_, ?_⟩
    · rw [List.length_cons, ihx3, List.length_cons]
    · intro m hm hty
      rcases List.mem_cons.mp hm with rfl | hmt
      · exact ihx1.subset (htokmem hty)
      · exact ihx4 m hmt hty
    · intro i n2 hi
      cases i with
      | zero =>
        rw [List.getElem?_cons_zero] at hi
        injection hi with hn2
        subst hn2
        rw [List.getElem?_cons_zero]
        constructor
        · intro hty
          rw [Vocab.get_symbol_idx_of_extension o1 _ ihx1 n.token (htokmem hty)]
        · by_cases hmem : n.token ∈ o1.idx2symbol
          · left
            rw [Vocab.get_symbol_idx_of_extension o1 _ ihx1 n.token hmem]
          · right
            have ho1 : o1 = if (n.nodeType = none ∨ n.nodeType = some 0) ∧
                oov.get_symbol_idx n.token = oov.get_symbol_idx oov.unk_token
                then oov.add_symbol n.token else oov := by
              have h := prepareStep_fst oov [] n
              rw [hP] at h
              exact h
            by_cases hc : (n.nodeType = none ∨ n.nodeType = some 0) ∧
                oov.get_symbol_idx n.token = oov.get_symbol_idx oov.unk_token
            · rw [if_pos hc] at ho1
              exact absurd (by rw [ho1]; exact Vocab.mem_add_symbol oov n.token) hmem
            · rw [if_neg hc] at ho1
              subst ho1
              rw [Vocab.get_symbol_idx_of_not_mem o1 n.token hmem]
      | succ j =>
        rw [List.getElem?_cons_succ] at hi
        rw [List.getElem?_cons_succ]
        obtain ⟨hA, hB⟩ := ihx5 j n2 hi
        refine ⟨hA, ?_⟩
        rcases hB with hB | hB
        · exact Or.inl hB
        · right
          rw [hB, Vocab.get_symbol_idx_unk_of_extension oov o1 hpre1 hunk1 hunk]

/-- Claim C1, counterexample: on a graph whose out-of-vocabulary token
`"x"` appears first on a node of type 1 and then on a node of type 0, the
`'token_id_oov'` feature is `[0, 1]` — the first node recorded the unknown
index 0 — while the token's index in the returned oov dictionary is 1, so
the feature does not hold every node's token index in the returned
dictionary. -/
theorem c1_counterexample :
    (prepareExtVocab exGraph exVocab).2.token_id_oov = some [0, 1] ∧
    (prepareExtVocab exGraph exVocab).1.get_symbol_idx "x" = 1 ∧
    (prepareExtVocab exGraph exVocab).2.token_id_oov ≠
      some (exGraph.node_attributes.map fun n =>
        (prepareExtVocab exGraph exVocab).1.get_symbol_idx n.token) := by
  refine ⟨rfl, rfl, ?_⟩
  decide

/-- Claim C1, amended: `prepare_ext_vocab` returns a runtime-extended copy
of the source vocabulary — every symbol of `src_vocab` keeps its index in
the returned oov dictionary; every node token whose `'type'` is absent or 0
is a symbol of the returned dictionary (added when first reached if it
mapped to the unknown index); and `'token_id_oov'` holds exactly one entry
per node, which for a node with `'type'` absent or 0 is its token's index
in the returned dictionary, and for any other node is either that index or
the unknown token's index (the latter exactly when the token was still
absent as that node was processed). -/
theorem c1_prepare_ext_vocab_amended (g : GraphData) (v : Vocab)
    (hunk : v.unk_token ∈ v.idx2symbol) :
    (∀ s ∈ v.idx2symbol,
      (prepareExtVocab g v).1.get_symbol_idx s = v.get_symbol_idx s) ∧
    v.idx2symbol <+: (prepareExtVocab g v).1.idx2symbol ∧
    (∀ n ∈ g.node_attributes, (n.nodeType = none ∨ n.nodeType = some 0) →
      n.token ∈ (prepareExtVocab g v).1.idx2symbol) ∧
    (∃ tm : List Nat, (prepareExtVocab g v).2.token_id_oov = some tm ∧
      tm.length = g.node_attributes.length ∧
      ∀ (i : Nat) (n2 : NodeAttr), g.node_attributes[i]? = some n2 →
        ((n2.nodeType = none ∨ n2.nodeType = some 0) →
          tm[i]? = some ((prepareExtVocab g v).1.get_symbol_idx n2.token)) ∧
        (tm[i]? = some ((prepareExtVocab g v).1.get_symbol_idx n2.token) ∨
         tm[i]? = some (v.get_symbol_idx v.unk_token))) := by
  obtain ⟨h1, h2, h3, h4, h5⟩ := prepare_fold_inv g.node_attributes v hunk
  exact ⟨fun s hs => Vocab.get_symbol_idx_of_extension v _ h1 s hs, h1, h4,
    (g.node_attributes.foldl prepareStep (v, [])).2, rfl, h3, h5⟩

/-- Claim C1, witness: at the example graph and vocabulary, the unknown
token keeps its source index in the returned oov dictionary. -/
theorem c1_prepare_ext_vocab_amended_witness :
    (prepareExtVocab exGraph exVocab).1.get_symbol_idx "<unk>" =
      exVocab.get_symbol_idx "<unk>" :=
  (c1_prepare_ext_vocab_amended exGraph exVocab (by decide)).1 "<unk>" (by decide)

/-- Claim C2, witness: the characterization instantiated at an unrecognized
`graph_construction_type`. -/
theorem c2_explicit_raises_characterization_witness :
    buildDataloader { exampleConfig with graph_construction_type := "Foo" } =
      Except.error ScriptError.notImplementedError :=
  (c2_explicit_raises_characterization
      { exampleConfig with graph_construction_type := "Foo" }
      ScriptError.notImplementedError).mpr (Or.inl ⟨rfl, by decide⟩)

/-- Claim C3, witness: the equivalence instantiated at an unrecognized
`graph_construction_type`. -/
theorem c3_build_dataloader_not_implemented_iff_witness :
    buildDataloader { exampleConfig with graph_construction_type := "Bar" } =
      Except.error ScriptError.notImplementedError :=
  (c3_build_dataloader_not_implemented_iff
      { exampleConfig with graph_construction_type := "Bar" }).mpr (by decide)

/-- Claim C4, witness: the result equation instantiated at `max_epochs = 7`
with the identity accuracy oracle. -/
theorem c4_train_loop_witness :
    trainResult 7 (fun e => (e : Int)) =
      ((evalEpochs 7).map fun e => (e : Int)).foldl max (-1) :=
  (c4_train_loop 7 (fun e => (e : Int))).2.2
